import Mathlib

/-!
Verification of the email-triage decision pipeline (emailScanner).

This file gives a shallow embedding of the algorithmic core of the
repository — the rules engine (`rules.py`), the sender-history pattern
detector (`sender_memory.py`), the confidence calibrator
(`confidence_calibration.py`), the classifier-response parser
(`ollama_analyzer.py`), the domain scan of the pattern miner
(`learn_patterns.py`) and the per-message orchestration of
`scanner.py` — and proves properties of that embedding.

Conventions of the embedding:
* confidences and rates are rationals (`ℚ`);
* timestamps are UTC instants measured in seconds (`Int`); the age in
  whole days of `timedelta.days` is floor division by 86400;
* database query results are passed explicitly (a list of decision
  rows for a sender, a per-bucket aggregate function for the
  calibrator, a list of grouped domain rows for the miner);
* the classifier transport is `Option RawResponse`: `none` stands for
  an unreachable/timed-out/non-2xx call (`_call_ollama` returning
  `None` or an empty response), `some raw` for a reply whose JSON
  decoding outcome is `raw`.
-/

namespace EmailScanner

/-! ## Text primitives shared by the embedding -/

/-- The Python `str.lower()` (character-wise, via `Char.toLower`). -/
def to_lower (s : String) : String :=
  ⟨s.toList.map Char.toLower⟩

/-- Contiguous-sublist test on character lists: `n` occurs starting at
some position of the second list. -/
def char_infix (n : List Char) : List Char → Bool
  | [] => n.isEmpty
  | c :: rest => n.isPrefixOf (c :: rest) || char_infix n rest

/-- The Python substring test `needle in haystack`, on the underlying
character lists. -/
def str_in (needle haystack : String) : Bool :=
  char_infix needle.toList haystack.toList

/-! ## rules.py — `EmailRules` -/

/-- Configured state of the rules engine after `EmailRules.__init__`
(the keyword/sender lists are stored lowercased). -/
structure EmailRules where
  vip_senders : List String
  event_keywords : List String
  job_keywords : List String
  old_event_days : Int
  old_job_days : Int
  newsletter_senders : List String
  old_newsletter_days : Int
  promotional_keywords : List String
  old_promotional_days : Int
deriving Repr, DecidableEq

/-- `EmailRules.DEFAULT_VIP_SENDERS`. -/
def DEFAULT_VIP_SENDERS : List String :=
  ["cdarling926@gmail.com", "grace0614@gmail.com"]

/-- `EmailRules.DEFAULT_EVENT_KEYWORDS`. -/
def DEFAULT_EVENT_KEYWORDS : List String :=
  ["calendar", "meeting", "appointment", "rsvp", "invite", "invitation",
   "event", "reminder", "scheduled", "webinar", "conference"]

/-- `EmailRules.DEFAULT_JOB_KEYWORDS`. -/
def DEFAULT_JOB_KEYWORDS : List String :=
  ["job opportunity", "job alert", "career opportunity", "now hiring",
   "we\x27re hiring", "position available", "job opening", "apply now",
   "recruitment", "recruiter"]

/-- `EmailRules.DEFAULT_NEWSLETTER_SENDERS`. -/
def DEFAULT_NEWSLETTER_SENDERS : List String :=
  ["thedaily@theskimm.com", "@newsletters.", "noreply@", "news@"]

/-- `EmailRules.DEFAULT_PROMOTIONAL_KEYWORDS`. -/
def DEFAULT_PROMOTIONAL_KEYWORDS : List String :=
  ["sale", "discount", "% off", "limited time", "deal", "offer",
   "promotion", "exclusive", "flash sale", "clearance", "save now",
   "shop now", "buy now", "order now"]

/-- `EmailRules.__init__`: lowercases the configured lists and stores
the day thresholds. -/
def EmailRules.init (vip events jobs : List String) (oldEvent oldJob : Int)
    (newsletters : List String) (oldNewsletter : Int)
    (promos : List String) (oldPromo : Int) : EmailRules :=
  { vip_senders := vip.map to_lower
    event_keywords := events.map to_lower
    job_keywords := jobs.map to_lower
    old_event_days := oldEvent
    old_job_days := oldJob
    newsletter_senders := newsletters.map to_lower
    old_newsletter_days := oldNewsletter
    promotional_keywords := promos.map to_lower
    old_promotional_days := oldPromo }

/-- An email as the scanner sees it (`email_data` dictionary):
`date = none` models an absent/`None` received date. The timestamp is
UTC seconds; the Python naive-datetime-as-UTC normalization is the
identity under this representation. -/
structure EmailData where
  sender : String
  subject : String
  body_preview : String
  date : Option Int
deriving Repr, DecidableEq

/-- `timedelta.days` of `now - received`: floor division of the
second difference by 86400. -/
def age_days (now received : Int) : Int :=
  (now - received).fdiv 86400

/-- `EmailRules._is_vip_sender`: substring match of any configured VIP
address inside the sender. -/
def is_vip_sender (r : EmailRules) (sender : String) : Bool :=
  r.vip_senders.any (fun vip => str_in vip sender)

/-- `EmailRules._is_event`: any event keyword occurs in
`subject ++ " " ++ body` (lowercased). -/
def is_event (r : EmailRules) (subject body : String) : Bool :=
  let text := to_lower (subject ++ " " ++ body)
  r.event_keywords.any (fun k => str_in k text)

/-- `EmailRules._is_old_event`: event keyword match and age strictly
greater than `old_event_days`. -/
def is_old_event (r : EmailRules) (subject body : String)
    (received now : Int) : Bool :=
  if !is_event r subject body then false
  else age_days now received > r.old_event_days

/-- The automated-sender substrings hardcoded in
`EmailRules._looks_like_personal`. -/
def automated_patterns : List String :=
  ["noreply", "no-reply", "donotreply", "notifications", "alerts",
   "info@", "support@", "news@", "marketing@"]

/-- The regex `\d+% off` of `PROMOTIONAL_PATTERNS`: some digit is
immediately followed by the literal `"% off"`. -/
def digit_percent_off : List Char → Bool
  | [] => false
  | c :: rest =>
    (c.isDigit && ("% off".toList.isPrefixOf rest)) || digit_percent_off rest

/-- `re.search` of each pattern in `EmailRules.PROMOTIONAL_PATTERNS`
over the (already lowercased) text; all patterns but `\d+% off` are
literals. -/
def promotional_patterns_match (text : String) : Bool :=
  str_in "unsubscribe" text || str_in "click here" text ||
  digit_percent_off text.toList || str_in "limited time" text ||
  str_in "don\x27t miss" text || str_in "exclusive offer" text

/-- Word counter for `len(subject.split())`: counts the maximal
whitespace-free runs (the Python `str.split()` drops empty pieces). -/
def count_words : List Char → Bool → Nat
  | [], _ => 0
  | c :: r, inWord =>
    if c.isWhitespace then count_words r false
    else (if inWord then 0 else 1) + count_words r true

/-- The Python `str.split()` word count. -/
def word_count (s : String) : Nat :=
  count_words s.toList false

/-- `EmailRules._looks_like_personal`: no automated-sender substring,
no promotional pattern, consumer-webmail domain, short subject, and no
`unsubscribe` in the text. -/
def looks_like_personal (sender subject body : String) : Bool :=
  if automated_patterns.any (fun p => str_in p (to_lower sender)) then false
  else
    let text := to_lower (subject ++ " " ++ body)
    if promotional_patterns_match text then false
    else if (str_in "@gmail.com" sender || str_in "@yahoo.com" sender
        || str_in "@hotmail.com" sender) then
      word_count subject ≤ 6 && !(str_in "unsubscribe" text)
    else false

/-- `EmailRules._is_old_job_offer`: age below `old_job_days` rejects;
otherwise any job keyword in the text matches. Note the guard is
`age.days < old_job_days`, so an age equal to the threshold matches. -/
def is_old_job_offer (r : EmailRules) (subject body : String)
    (received now : Int) : Bool :=
  if age_days now received < r.old_job_days then false
  else
    let text := to_lower (subject ++ " " ++ body)
    r.job_keywords.any (fun k => str_in k text)

/-- `EmailRules._is_old_newsletter`: age below `old_newsletter_days`
rejects; otherwise any configured newsletter-sender pattern inside the
lowercased sender matches. -/
def is_old_newsletter (r : EmailRules) (sender : String)
    (received now : Int) : Bool :=
  if age_days now received < r.old_newsletter_days then false
  else r.newsletter_senders.any (fun p => str_in p (to_lower sender))

/-- `EmailRules._is_old_promotional`: age below `old_promotional_days`
rejects; otherwise any promotional keyword in the text matches. -/
def is_old_promotional (r : EmailRules) (subject body : String)
    (received now : Int) : Bool :=
  if age_days now received < r.old_promotional_days then false
  else
    let text := to_lower (subject ++ " " ++ body)
    r.promotional_keywords.any (fun k => str_in k text)

/-- A rule/pattern/model analysis result: the five fields every tier
produces and `scanner._process_email` persists. -/
structure AResult where
  recommendation : String
  confidence_score : ℚ
  reasoning : String
  category : String
  priority : String
deriving Repr, DecidableEq

/-- A rule verdict: an `AResult` plus the `rule_matched` tag. -/
structure RuleVerdict extends AResult where
  rule_matched : String
deriving Repr, DecidableEq

/-- The rule-1 verdict dictionary of `check_email`. -/
def old_event_verdict (r : EmailRules) : RuleVerdict :=
  { recommendation := "delete", confidence_score := 93/100
    reasoning := "Old event notification (older than " ++
      toString r.old_event_days ++ " days) - no longer relevant"
    category := "event", priority := "low", rule_matched := "old_event" }

/-- The rule-2 verdict dictionary of `check_email`. -/
def vip_verdict (sender : String) : RuleVerdict :=
  { recommendation := "keep", confidence_score := 99/100
    reasoning := "VIP sender: " ++ sender
    category := "personal", priority := "high", rule_matched := "vip_sender" }

/-- The rule-3 verdict dictionary of `check_email`. -/
def event_verdict : RuleVerdict :=
  { recommendation := "keep", confidence_score := 95/100
    reasoning := "Email appears to be event/calendar related"
    category := "event", priority := "high", rule_matched := "event" }

/-- The rule-4 verdict dictionary of `check_email`. -/
def personal_verdict : RuleVerdict :=
  { recommendation := "keep", confidence_score := 90/100
    reasoning := "Email appears to be from a personal contact"
    category := "personal", priority := "medium"
    rule_matched := "personal_contact" }

/-- The rule-5 verdict dictionary of `check_email`. -/
def old_job_verdict : RuleVerdict :=
  { recommendation := "delete", confidence_score := 92/100
    reasoning := "Old job offer (6+ months) - likely no longer relevant"
    category := "job", priority := "low", rule_matched := "old_job_offer" }

/-- The rule-6 verdict dictionary of `check_email`. -/
def old_newsletter_verdict (r : EmailRules) : RuleVerdict :=
  { recommendation := "delete", confidence_score := 93/100
    reasoning := "Old newsletter/news source (older than " ++
      toString r.old_newsletter_days ++ " days)"
    category := "newsletter", priority := "low"
    rule_matched := "old_newsletter" }

/-- The rule-7 verdict dictionary of `check_email`. -/
def old_promotional_verdict (r : EmailRules) : RuleVerdict :=
  { recommendation := "delete", confidence_score := 94/100
    reasoning := "Old promotional/sale email (older than " ++
      toString r.old_promotional_days ++ " days)"
    category := "promotional", priority := "low"
    rule_matched := "old_promotional" }

/-- Truthiness guard `if received_date and pred(received_date)`. -/
def with_date (d : Option Int) (p : Int → Bool) : Bool :=
  match d with
  | some t => p t
  | none => false

/-- `EmailRules.check_email`: the sequential if/elif chain of rules 1–7,
first match wins, `none` when nothing matches. `now` replaces
`datetime.now(UTC)`. -/
def check_email (r : EmailRules) (e : EmailData) (now : Int) :
    Option RuleVerdict :=
  let sender := to_lower e.sender
  let subject := to_lower e.subject
  let body := to_lower e.body_preview
  if with_date e.date (fun t => is_old_event r subject body t now) then
    some (old_event_verdict r)
  else if is_vip_sender r sender then
    some (vip_verdict sender)
  else if is_event r subject body then
    some event_verdict
  else if looks_like_personal sender subject body then
    some personal_verdict
  else if with_date e.date (fun t => is_old_job_offer r subject body t now) then
    some old_job_verdict
  else if with_date e.date (fun t => is_old_newsletter r sender t now) then
    some (old_newsletter_verdict r)
  else if with_date e.date (fun t => is_old_promotional r subject body t now) then
    some (old_promotional_verdict r)
  else none

/-! ## sender_memory.py — `SenderMemory` -/

/-- One joined row of the per-sender decision query: the human action
(`Decision.action_taken`) and the stated confidence of the analysis
(`Analysis.confidence_score`, `none` for SQL NULL). -/
structure DecisionRow where
  action_taken : String
  confidence_score : Option ℚ
deriving Repr, DecidableEq

/-- The statistics dictionary built by `SenderMemory.get_sender_stats`. -/
structure SenderStats where
  total_decisions : Nat
  kept_count : Nat
  deleted_count : Nat
  archived_count : Nat
  keep_rate : ℚ
  delete_rate : ℚ
  avg_confidence : ℚ
  most_common_action : Option String
  has_pattern : Bool
deriving Repr, DecidableEq

/-- `SenderMemory.get_sender_stats`, over the rows the sender query
returns. Mirrors the source, including the Python-truthiness filter on
confidences (`if a.confidence_score` drops both NULL and 0.0) and the
first-maximum tie-break of `max(action_counts, key=...)`. -/
def get_sender_stats (rows : List DecisionRow) : SenderStats :=
  if rows.isEmpty then
    { total_decisions := 0, kept_count := 0, deleted_count := 0
      archived_count := 0, keep_rate := 0, delete_rate := 0
      avg_confidence := 0, most_common_action := none, has_pattern := false }
  else
    let total := rows.length
    let kept := (rows.filter (fun d => d.action_taken = "kept")).length
    let deleted := (rows.filter (fun d => d.action_taken = "deleted")).length
    let archived := (rows.filter (fun d => d.action_taken = "archived")).length
    let confidences := rows.filterMap (fun d =>
      match d.confidence_score with
      | some c => if c = 0 then none else some c
      | none => none)
    let avg_confidence :=
      if confidences.isEmpty then 0 else confidences.sum / confidences.length
    let keep_rate : ℚ := kept / total
    let delete_rate : ℚ := deleted / total
    let most_common :=
      if kept ≥ deleted ∧ kept ≥ archived then "kept"
      else if deleted ≥ archived then "deleted"
      else "archived"
    let most_common_count :=
      if most_common = "kept" then kept
      else if most_common = "deleted" then deleted else archived
    { total_decisions := total, kept_count := kept, deleted_count := deleted
      archived_count := archived, keep_rate := keep_rate
      delete_rate := delete_rate, avg_confidence := avg_confidence
      most_common_action :=
        if most_common_count > 0 then some most_common else none
      has_pattern :=
        total ≥ 3 ∧ (keep_rate ≥ 9/10 ∨ delete_rate ≥ 9/10) }

/-- A pattern verdict: an `AResult` plus the `skip_reason` tag. -/
structure PatternVerdict extends AResult where
  skip_reason : String
deriving Repr, DecidableEq

/-- The keep dictionary returned by `SenderMemory.should_skip_llm`. -/
def pattern_keep_verdict (st : SenderStats) : PatternVerdict :=
  { recommendation := "keep", confidence_score := st.keep_rate
    reasoning := "Pattern detected: You\x27ve kept " ++
      toString st.kept_count ++ "/" ++ toString st.total_decisions ++
      " emails from this sender"
    category := "pattern_learned", priority := "medium"
    skip_reason := "sender_history" }

/-- The delete dictionary returned by `SenderMemory.should_skip_llm`. -/
def pattern_delete_verdict (st : SenderStats) : PatternVerdict :=
  { recommendation := "delete", confidence_score := st.delete_rate
    reasoning := "Pattern detected: You\x27ve deleted " ++
      toString st.deleted_count ++ "/" ++ toString st.total_decisions ++
      " emails from this sender"
    category := "pattern_learned", priority := "low"
    skip_reason := "sender_history" }

/-- `SenderMemory.should_skip_llm`, over the decision rows of the sender. -/
def should_skip_llm (rows : List DecisionRow) : Option PatternVerdict :=
  let stats := get_sender_stats rows
  if !stats.has_pattern then none
  else if stats.keep_rate ≥ 9/10 then some (pattern_keep_verdict stats)
  else if stats.delete_rate ≥ 9/10 then some (pattern_delete_verdict stats)
  else none

/-! ## confidence_calibration.py — `ConfidenceCalibrator` -/

/-- `ConfidenceCalibrator.buckets`: `(min, max, name)` triples. -/
def buckets : List (ℚ × ℚ × String) :=
  [(0, 1/2, "very_low"), (1/2, 7/10, "low"), (7/10, 17/20, "medium"),
   (17/20, 19/20, "high"), (19/20, 1, "very_high")]

/-- The per-bucket SQL aggregate read by
`ConfidenceCalibrator.get_bucket_stats`: row count, count of approved
decisions, and `avg(confidence_score)` (`none` for SQL NULL on an
empty bucket). -/
structure BucketAgg where
  total : Nat
  correct : Nat
  avg_confidence : Option ℚ
deriving Repr, DecidableEq

/-- The per-bucket statistics dictionary of `get_bucket_stats`. -/
structure BucketStats where
  min_confidence : ℚ
  max_confidence : ℚ
  total_decisions : Nat
  correct_decisions : Nat
  accuracy : ℚ
  avg_stated_confidence : ℚ
  calibration_error : ℚ
  sample_size_sufficient : Bool
deriving Repr, DecidableEq

/-- The body of `get_bucket_stats` for one bucket. The Python `or`
fallback `avg_confidence or midpoint` replaces both NULL and an exact
0.0 average by the bucket midpoint. -/
def mk_bucket_stats (min_conf max_conf : ℚ) (agg : BucketAgg) : BucketStats :=
  let total := agg.total
  let correct := agg.correct
  let avg_confidence :=
    match agg.avg_confidence with
    | some a => if a = 0 then (min_conf + max_conf) / 2 else a
    | none => (min_conf + max_conf) / 2
  let accuracy : ℚ := if total > 0 then correct / total else 0
  { min_confidence := min_conf, max_confidence := max_conf
    total_decisions := total, correct_decisions := correct
    accuracy := accuracy, avg_stated_confidence := avg_confidence
    calibration_error := if total > 0 then avg_confidence - accuracy else 0
    sample_size_sufficient := total ≥ 5 }

/-- The bucket-search loop of `calibrate_confidence`: first triple with
`min ≤ stated < max`, or — via the special disjunct for the closed last
bucket — `max = 1 ∧ stated ≤ 1`. -/
def find_bucket_aux (stated : ℚ) :
    List (ℚ × ℚ × String) → Option (ℚ × ℚ × String)
  | [] => none
  | b :: rest =>
    if (b.1 ≤ stated ∧ stated < b.2.1) ∨ (b.2.1 = 1 ∧ stated ≤ b.2.1)
    then some b else find_bucket_aux stated rest

/-- The bucket-search loop of `calibrate_confidence` over `buckets`. -/
def find_bucket (stated : ℚ) : Option (ℚ × ℚ × String) :=
  find_bucket_aux stated buckets

/-- The reasoning string of `calibrate_confidence`, abstracted as a
datatype carrying the same numeric data as the formatted text (the
`%.1%` float formatting itself is not modelled). -/
inductive CalibrationNote where
  | notApplied
  | insufficientData (samples : Nat)
  | wellCalibrated (accuracy : ℚ)
  | adjustedDown (accuracy avgStated : ℚ)
  | adjustedUp (accuracy avgStated : ℚ)
deriving Repr, DecidableEq

/-- `ConfidenceCalibrator.calibrate_confidence`: bucket lookup,
insufficient-sample guard, damped correction
`stated − 0.5·(avg_stated − accuracy)` clamped to `[0, 1]`, and the
classifying reasoning. The per-bucket aggregates stand for the
database state; the (ignored) `category` argument is omitted. -/
def calibrate_confidence (stated : ℚ) (aggs : String → BucketAgg) :
    ℚ × CalibrationNote :=
  match find_bucket stated with
  | none => (stated, .notApplied)
  | some (min_conf, max_conf, name) =>
    let bs := mk_bucket_stats min_conf max_conf (aggs name)
    if !bs.sample_size_sufficient then
      (stated, .insufficientData bs.total_decisions)
    else
      let accuracy := bs.accuracy
      let calibration_error := bs.calibration_error
      let calibrated := max 0 (min 1 (stated - calibration_error * (1/2)))
      let note :=
        if |calibration_error| < 1/20 then
          CalibrationNote.wellCalibrated accuracy
        else if calibration_error > 0 then
          CalibrationNote.adjustedDown accuracy bs.avg_stated_confidence
        else CalibrationNote.adjustedUp accuracy bs.avg_stated_confidence
      (calibrated, note)

/-! ## ollama_analyzer.py — `OllamaAnalyzer` -/

/-- The `confidence_score` field of a decoded JSON response:
`float(...)` either yields a number or raises (`bad`). -/
inductive JsonConf where
  | num (q : ℚ)
  | bad
deriving Repr, DecidableEq

/-- A successfully decoded JSON object, with each field of interest
optional. -/
structure JsonResp where
  recommendation : Option String
  confidence_score : Option JsonConf
  reasoning : Option String
  category : Option String
  priority : Option String
deriving Repr, DecidableEq

/-- The JSON-decoding outcome of the raw classifier text (after the
markdown-fence stripping): either a decode failure or an object. -/
inductive RawResponse where
  | malformed
  | json (j : JsonResp)
deriving Repr, DecidableEq

/-- `default_analysis` of `OllamaAnalyzer._parse_analysis_response`. -/
def default_analysis : AResult :=
  { recommendation := "keep", confidence_score := 1/2
    reasoning := "Unable to parse AI response"
    category := "unknown", priority := "medium" }

/-- `OllamaAnalyzer._parse_analysis_response`: decode failure or a
missing recommendation falls back to the defaults; an invalid
recommendation is coerced to `"keep"`; an unparsable confidence raises
inside the `try`, so the whole default dictionary is returned; a
numeric confidence is clamped to `[0, 1]`, an absent one becomes 0.5;
absent reasoning/category/priority get their `setdefault` values. -/
def parse_analysis_response : RawResponse → AResult
  | .malformed => default_analysis
  | .json j =>
    match j.recommendation with
    | none => default_analysis
    | some rec =>
      let rec1 := if ["delete", "keep", "archive"].contains rec
        then rec else "keep"
      match j.confidence_score with
      | some .bad => default_analysis
      | some (.num c) =>
        { recommendation := rec1
          confidence_score := max 0 (min 1 c)
          reasoning := j.reasoning.getD "No reasoning provided"
          category := j.category.getD "unknown"
          priority := j.priority.getD "medium" }
      | none =>
        { recommendation := rec1
          confidence_score := 1/2
          reasoning := j.reasoning.getD "No reasoning provided"
          category := j.category.getD "unknown"
          priority := j.priority.getD "medium" }

/-- `OllamaAnalyzer.analyze_email`, restricted to its decision-relevant
core: a failed or empty `_call_ollama` (`none`) yields `None`, any
reply is parsed into a validated result. Prompt construction and
few-shot example retrieval do not influence the returned structure. -/
def analyze_email (response : Option RawResponse) : Option AResult :=
  match response with
  | none => none
  | some raw => some (parse_analysis_response raw)

/-! ## scanner.py — `EmailScanner._process_email` -/

/-- The analysis payload `_process_email` persists: the five result
fields plus the model name/version tags set by the producing tier. -/
structure TierOutput where
  result : AResult
  model_name : String
  model_version : String
deriving Repr, DecidableEq

/-- The tier selection and calibration logic of
`EmailScanner._process_email` (lines 266–308): rules first, then sender
history, then the classifier; a calibrated confidence replaces the
stated one only when the adjustment exceeds 0.05, in which case the
calibration reasoning is appended (the appended marker abbreviates the
the `" (Confidence calibrated: ...)"` string of the source, whose numeric content
is carried by `CalibrationNote`). Returns `none` when the classifier
tier fails (`analysis_result` falsy), where the source rolls back and
reports failure without persisting anything. -/
def process_verdict (r : EmailRules) (e : EmailData) (now : Int)
    (sender_rows : List DecisionRow) (aggs : String → BucketAgg)
    (response : Option RawResponse) (model : String) : Option TierOutput :=
  match check_email r e now with
  | some rule_result =>
    some ⟨rule_result.toAResult, "rules_engine", "1.0"⟩
  | none =>
    match should_skip_llm sender_rows with
    | some pattern_result =>
      some ⟨pattern_result.toAResult, "pattern_memory", "1.0"⟩
    | none =>
      match analyze_email response with
      | none => none
      | some a =>
        let original_confidence := a.confidence_score
        let c := calibrate_confidence original_confidence aggs
        if |c.1 - original_confidence| > 1/20 then
          some ⟨{ a with
                  confidence_score := c.1
                  reasoning := a.reasoning ++ " (Confidence calibrated)" },
                model, "latest"⟩
        else some ⟨a, model, "latest"⟩

/-- A persisted `Analysis` row (the fields `_process_email` writes;
`analyzed_at` is the write instant). -/
structure AnalysisRecord where
  email_id : Nat
  recommendation : String
  confidence_score : ℚ
  reasoning : String
  category : String
  priority : String
  model_name : String
  model_version : String
  status : String
  analyzed_at : Int
deriving Repr, DecidableEq

/-- The field assignments shared by the update and insert branches of
`_process_email` (status is reset to `pending_review` in both). -/
def mk_analysis_record (email_id : Nat) (t : TierOutput) (now : Int) :
    AnalysisRecord :=
  { email_id := email_id
    recommendation := t.result.recommendation
    confidence_score := t.result.confidence_score
    reasoning := t.result.reasoning
    category := t.result.category
    priority := t.result.priority
    model_name := t.model_name
    model_version := t.model_version
    status := "pending_review"
    analyzed_at := now }

/-- The store-or-update step of `_process_email` (lines 310–340): the
first existing `Analysis` row with this `email_id` is overwritten in
place, otherwise a new row is appended. -/
def upsert_analysis (db : List AnalysisRecord) (email_id : Nat)
    (t : TierOutput) (now : Int) : List AnalysisRecord :=
  match db with
  | [] => [mk_analysis_record email_id t now]
  | rec0 :: rest =>
    if rec0.email_id = email_id then mk_analysis_record email_id t now :: rest
    else rec0 :: upsert_analysis rest email_id t now

/-! ## learn_patterns.py — domain scan of the pattern miner -/

/-- Position of the first `'@'`: the remaining characters after it,
`none` when absent. -/
def after_first_at : List Char → Option (List Char)
  | [] => none
  | c :: r => if c = '@' then some r else after_first_at r

/-- The SQL domain extraction of `get_domain_patterns`,
`substr(sender, instr(sender, '@') + 1)`: everything after the first
`'@'`, or the whole string when there is none (`instr` returns 0). -/
def extract_domain (sender : String) : String :=
  match after_first_at sender.toList with
  | some rest => ⟨rest⟩
  | none => sender

/-- One grouped row of the domain query in `get_domain_patterns`
(after `GROUP BY domain`). -/
structure DomainRow where
  domain : String
  total : Nat
  keep_count : Nat
  delete_count : Nat
deriving Repr, DecidableEq

/-- A proposed rule of `get_domain_patterns`. -/
structure DomainPattern where
  domain : String
  action : String
  total_decisions : Nat
  consistency_rate : ℚ
  rule_type : String
deriving Repr, DecidableEq

/-- The `delete_rate` computed per grouped row. -/
def domain_delete_rate (g : DomainRow) : ℚ :=
  if g.total > 0 then g.delete_count / g.total else 0

/-- `get_domain_patterns`, over the grouped rows: the `HAVING`
clause keeps rows with at least `min_decisions` decisions, the loop
skips empty or `'@'`-containing domains and appends a
`domain_auto_delete` proposal exactly for the rows whose delete rate
reaches the threshold. No keep-direction branch exists. -/
def get_domain_patterns (rows : List DomainRow) (min_decisions : Nat := 8)
    (pattern_threshold : ℚ := 9/10) : List DomainPattern :=
  (rows.filter (fun g => g.total ≥ min_decisions)).filterMap (fun g =>
    if g.domain = "" ∨ str_in "@" g.domain then none
    else if domain_delete_rate g ≥ pattern_threshold then
      some { domain := g.domain, action := "delete"
             total_decisions := g.total
             consistency_rate := domain_delete_rate g
             rule_type := "domain_auto_delete" }
    else none)

/-! ## Concrete fixtures used by witnesses and counterexamples -/

/-- A small rules configuration: one VIP, one event keyword, one job
keyword, one newsletter pattern, one promotional keyword, with the
default day thresholds of the source. -/
def sample_rules : EmailRules :=
  EmailRules.init ["a@b.com"] ["event"] ["recruiter"] 60 180
    ["news@"] 7 ["sale"] 90

/-- An email matching no rule (no date, non-VIP sender, no keyword). -/
def plain_email : EmailData :=
  { sender := "x@y.com", subject := "hello", body_preview := ""
    date := none }

/-- An email from the VIP sender whose subject carries the event
keyword, received at instant 0. -/
def vip_event_email : EmailData :=
  { sender := "A@b.com", subject := "Event update", body_preview := ""
    date := some 0 }

/-- A database with no human-reviewed decisions in any bucket. -/
def empty_bucket_aggs : String → BucketAgg :=
  fun _ => { total := 0, correct := 0, avg_confidence := none }

/-- Bucket aggregates realizing the damping example of the spec for the
`"high"` bucket: 10 decisions, 7 correct (accuracy 0.70), average
stated confidence 0.90. -/
def damping_bucket_aggs : String → BucketAgg :=
  fun name =>
    if name = "high" then { total := 10, correct := 7, avg_confidence := some (9/10) }
    else { total := 0, correct := 0, avg_confidence := none }

/-- Bucket aggregates with a small calibration error in the `"high"`
bucket: 10 decisions, 8 correct (accuracy 0.80), average stated
confidence 0.90, so the damped adjustment is exactly 0.05. -/
def small_error_bucket_aggs : String → BucketAgg :=
  fun name =>
    if name = "high" then { total := 10, correct := 8, avg_confidence := some (9/10) }
    else { total := 0, correct := 0, avg_confidence := none }

/-- A well-formed classifier reply recommending delete at stated
confidence 0.90. -/
def delete_response : RawResponse :=
  .json { recommendation := some "delete"
          confidence_score := some (.num (9/10))
          reasoning := some "r", category := some "newsletter"
          priority := some "low" }

/-- Two identical human delete decisions for one sender. -/
def two_deleted_rows : List DecisionRow :=
  [⟨"deleted", none⟩, ⟨"deleted", none⟩]

/-- Three identical human delete decisions for one sender. -/
def three_deleted_rows : List DecisionRow :=
  [⟨"deleted", none⟩, ⟨"deleted", none⟩, ⟨"deleted", none⟩]

/-! ## C3 — calibration arithmetic -/

/-- Claim C3 (confirmed). For every stated confidence in `[0, 1]` and
every bucket-statistics state, with the bucket containing the stated
confidence: fewer than 5 samples returns the stated confidence
unchanged with the insufficient-data reasoning; otherwise the result
is `clamp(stated − 0.5·(avg_stated − accuracy), 0, 1)`; when the
average stated confidence of the bucket equals its observed accuracy the
stated confidence is returned unchanged; and on the concrete state
{avg_stated = 0.90, accuracy = 0.70, total = 10}, calibrating 0.90
yields 0.80. -/
theorem calibrate_confidence_spec (stated : ℚ) (aggs : String → BucketAgg)
    (mn mx : ℚ) (nm : String) (h0 : 0 ≤ stated) (h1 : stated ≤ 1)
    (hb : find_bucket stated = some (mn, mx, nm)) :
    ((mk_bucket_stats mn mx (aggs nm)).total_decisions < 5 →
      calibrate_confidence stated aggs =
        (stated, CalibrationNote.insufficientData
          (mk_bucket_stats mn mx (aggs nm)).total_decisions))
    ∧ (5 ≤ (mk_bucket_stats mn mx (aggs nm)).total_decisions →
      (calibrate_confidence stated aggs).1 =
        max 0 (min 1 (stated -
          ((mk_bucket_stats mn mx (aggs nm)).avg_stated_confidence -
            (mk_bucket_stats mn mx (aggs nm)).accuracy) * (1/2))))
    ∧ ((mk_bucket_stats mn mx (aggs nm)).avg_stated_confidence =
        (mk_bucket_stats mn mx (aggs nm)).accuracy →
      (calibrate_confidence stated aggs).1 = stated)
    ∧ (calibrate_confidence (9/10) damping_bucket_aggs).1 = 4/5 := by
  have hcal : calibrate_confidence stated aggs =
      (let bs := mk_bucket_stats mn mx (aggs nm)
       if !bs.sample_size_sufficient then
         (stated, .insufficientData bs.total_decisions)
       else
         (max 0 (min 1 (stated - bs.calibration_error * (1/2))),
          if |bs.calibration_error| < 1/20 then
            CalibrationNote.wellCalibrated bs.accuracy
          else if bs.calibration_error > 0 then
            CalibrationNote.adjustedDown bs.accuracy bs.avg_stated_confidence
          else CalibrationNote.adjustedUp bs.accuracy bs.avg_stated_confidence) : ℚ × CalibrationNote) := by
    rw [calibrate_confidence, hb]
  refine ⟨?_, ?_, ?_, ?_⟩
  · intro hlt
    rw [hcal]
    have hsuff : (mk_bucket_stats mn mx (aggs nm)).sample_size_sufficient = false := by
      simp only [mk_bucket_stats]
      simpa using Nat.not_le.mpr hlt
    simp [hsuff]
  · intro hle
    rw [hcal]
    simp only [mk_bucket_stats] at hle
    have hsuff : (mk_bucket_stats mn mx (aggs nm)).sample_size_sufficient = true := by
      simp only [mk_bucket_stats]
      simpa using hle
    have herr : (mk_bucket_stats mn mx (aggs nm)).calibration_error =
        (mk_bucket_stats mn mx (aggs nm)).avg_stated_confidence -
          (mk_bucket_stats mn mx (aggs nm)).accuracy := by
      simp only [mk_bucket_stats]
      have hpos : 0 < (aggs nm).total := by omega
      simp [hpos]
    simp [hsuff, herr]
  · intro heq
    rw [hcal]
    have herr : (mk_bucket_stats mn mx (aggs nm)).calibration_error = 0 := by
      simp only [mk_bucket_stats] at heq ⊢
      split <;> simp_all
    cases hsuff : (mk_bucket_stats mn mx (aggs nm)).sample_size_sufficient
    · simp [hsuff]
    · simp [hsuff, herr]
      rw [min_eq_right h1, max_eq_right h0]
  · have hb9 : find_bucket (9/10 : ℚ) = some (17/20, 19/20, "high") := by
      norm_num [find_bucket, find_bucket_aux, buckets]
    rw [calibrate_confidence, hb9]
    norm_num [mk_bucket_stats, damping_bucket_aggs]

/-- Witness for `calibrate_confidence_spec`: concrete instantiation at
stated confidence 0.90 with 4 samples in the `"high"` bucket. -/
theorem calibrate_confidence_spec_witness :
    calibrate_confidence (9/10)
      (fun name => if name = "high" then
        { total := 4, correct := 1, avg_confidence := some (9/10) }
      else { total := 0, correct := 0, avg_confidence := none }) =
      ((9:ℚ)/10, CalibrationNote.insufficientData 4) := by
  have h := (calibrate_confidence_spec (9/10)
    (fun name => if name = "high" then
      { total := 4, correct := 1, avg_confidence := some (9/10) }
    else { total := 0, correct := 0, avg_confidence := none })
    (17/20) (19/20) "high" (by norm_num) (by norm_num)
    (by norm_num [find_bucket, find_bucket_aux, buckets])).1
  simpa [mk_bucket_stats] using h (by norm_num [mk_bucket_stats])

/-! ## C4 — rule 1 beats rule 2 -/

/-- Claim C4 (confirmed). A message matching both the old-event rule
and the VIP-sender rule gets the old-event delete verdict (confidence
0.93): rule 1 is evaluated before rule 2 and the first match wins. -/
theorem old_event_beats_vip (r : EmailRules) (e : EmailData) (now t : Int)
    (hd : e.date = some t)
    (hold : is_old_event r (to_lower e.subject) (to_lower e.body_preview)
      t now = true)
    (_hvip : is_vip_sender r (to_lower e.sender) = true) :
    check_email r e now = some (old_event_verdict r) := by
  rw [check_email]
  simp only [hd, with_date, hold, if_true]

/-- Witness for `old_event_beats_vip`: the test vector of the spec — VIP
`"a@b.com"`, event keyword in the subject, age `old_event_days + 1`. -/
theorem old_event_beats_vip_witness :
    check_email sample_rules vip_event_email (61 * 86400) =
      some (old_event_verdict sample_rules) :=
  old_event_beats_vip sample_rules vip_event_email (61 * 86400) 0
    rfl rfl rfl

/-! ## C5 — age-gate boundary semantics -/

/-- Claim C5 (counterexample). The old-job-offer rule matches a message
whose age equals `old_job_days` exactly (age 180 days, threshold 180),
refuting that every age-gated delete rule requires age strictly greater
than its threshold. -/
theorem age_equal_threshold_matches :
    is_old_job_offer sample_rules "recruiter" "" 0 (180 * 86400) = true
    ∧ age_days (180 * 86400) 0 = sample_rules.old_job_days := by
  exact ⟨rfl, rfl⟩

/-- Claim C5 (corrected). The old-event rule matches only when the age
is strictly greater than `old_event_days`; the old-job, old-newsletter
and old-promotional rules match exactly when the age is greater than
or equal to their thresholds (equality matches) and the corresponding
keyword/sender test holds. -/
theorem age_gate_semantics (r : EmailRules) (subject body sender : String)
    (received now : Int) :
    (is_old_event r subject body received now = true ↔
      (is_event r subject body = true ∧
        r.old_event_days < age_days now received))
    ∧ (is_old_job_offer r subject body received now = true ↔
      (r.old_job_days ≤ age_days now received ∧
        r.job_keywords.any
          (fun k => str_in k (to_lower (subject ++ " " ++ body))) = true))
    ∧ (is_old_newsletter r sender received now = true ↔
      (r.old_newsletter_days ≤ age_days now received ∧
        r.newsletter_senders.any
          (fun p => str_in p (to_lower sender)) = true))
    ∧ (is_old_promotional r subject body received now = true ↔
      (r.old_promotional_days ≤ age_days now received ∧
        r.promotional_keywords.any
          (fun k => str_in k (to_lower (subject ++ " " ++ body))) = true)) := by
  refine ⟨?_, ?_, ?_, ?_⟩
  · rw [is_old_event]
    by_cases hev : is_event r subject body <;> simp [hev]
  · rw [is_old_job_offer]
    by_cases hage : age_days now received < r.old_job_days
    · rw [if_pos hage]
      simp only [Bool.false_eq_true, false_iff, not_and]
      exact fun h1 => absurd h1 (by omega)
    · rw [if_neg hage]
      simp [Int.not_lt.mp hage]
  · rw [is_old_newsletter]
    by_cases hage : age_days now received < r.old_newsletter_days
    · rw [if_pos hage]
      simp only [Bool.false_eq_true, false_iff, not_and]
      exact fun h1 => absurd h1 (by omega)
    · rw [if_neg hage]
      simp [Int.not_lt.mp hage]
  · rw [is_old_promotional]
    by_cases hage : age_days now received < r.old_promotional_days
    · rw [if_pos hage]
      simp only [Bool.false_eq_true, false_iff, not_and]
      exact fun h1 => absurd h1 (by omega)
    · rw [if_neg hage]
      simp [Int.not_lt.mp hage]

/-! ## C6 — sender-history bypass -/

/-- The `has_pattern` flag of the sender statistics is exactly the
"total at least 3 and one rate at least 0.9" condition. -/
theorem get_sender_stats_has_pattern (rows : List DecisionRow) :
    (get_sender_stats rows).has_pattern = true ↔
      (3 ≤ (get_sender_stats rows).total_decisions ∧
        (9/10 ≤ (get_sender_stats rows).keep_rate ∨
          9/10 ≤ (get_sender_stats rows).delete_rate)) := by
  by_cases hrows : rows.isEmpty
  · simp [get_sender_stats, hrows]
  · simp only [get_sender_stats, hrows, if_false, Bool.false_eq_true]
    simp [ge_iff_le, and_comm]

/-- Claim C6 (confirmed). The sender-history bypass returns a verdict
iff the sender has at least 3 decisions and a keep or delete rate of
at least 0.9; the keep rate is checked first, the returned confidence
is the winning rate itself and the reasoning names the exact counts
(the content of `pattern_keep_verdict`/`pattern_delete_verdict`); two
identical delete decisions yield `none`, a third yields a verdict. -/
theorem should_skip_llm_spec (rows : List DecisionRow) :
    ((should_skip_llm rows).isSome = true ↔
      (3 ≤ (get_sender_stats rows).total_decisions ∧
        (9/10 ≤ (get_sender_stats rows).keep_rate ∨
          9/10 ≤ (get_sender_stats rows).delete_rate)))
    ∧ (3 ≤ (get_sender_stats rows).total_decisions →
        9/10 ≤ (get_sender_stats rows).keep_rate →
        should_skip_llm rows =
          some (pattern_keep_verdict (get_sender_stats rows)))
    ∧ (3 ≤ (get_sender_stats rows).total_decisions →
        (get_sender_stats rows).keep_rate < 9/10 →
        9/10 ≤ (get_sender_stats rows).delete_rate →
        should_skip_llm rows =
          some (pattern_delete_verdict (get_sender_stats rows)))
    ∧ should_skip_llm two_deleted_rows = none
    ∧ should_skip_llm three_deleted_rows =
        some (pattern_delete_verdict (get_sender_stats three_deleted_rows)) := by
  refine ⟨?_, ?_, ?_, ?_, ?_⟩
  · rw [should_skip_llm, ← get_sender_stats_has_pattern]
    cases hp : (get_sender_stats rows).has_pattern
    · simp [hp]
    · simp only [hp, Bool.not_true, Bool.false_eq_true, if_false]
      by_cases hk : 9/10 ≤ (get_sender_stats rows).keep_rate
      · simp [hk]
      · by_cases hd : 9/10 ≤ (get_sender_stats rows).delete_rate
        · simp [hk, hd]
        · -- `has_pattern` true forces one of the two rates
          exfalso
          rcases (get_sender_stats_has_pattern rows).mp hp with ⟨-, h | h⟩
          exacts [hk h, hd h]
  · intro h3 hk
    have hp : (get_sender_stats rows).has_pattern = true :=
      (get_sender_stats_has_pattern rows).mpr ⟨h3, Or.inl hk⟩
    rw [should_skip_llm]
    simp [hp, hk]
  · intro h3 hk hd
    have hp : (get_sender_stats rows).has_pattern = true :=
      (get_sender_stats_has_pattern rows).mpr ⟨h3, Or.inr hd⟩
    rw [should_skip_llm]
    simp [hp, not_le.mpr hk, hd]
  · simp +decide [should_skip_llm, get_sender_stats, two_deleted_rows,
      List.filter]
  · simp +decide [should_skip_llm, get_sender_stats, three_deleted_rows,
      List.filter, pattern_delete_verdict, pattern_keep_verdict]
    norm_num

/-- Witness for `should_skip_llm_spec`: its delete-branch implication
applied to three identical delete decisions (keep rate 0, delete
rate 1). -/
theorem should_skip_llm_spec_witness :
    should_skip_llm three_deleted_rows =
      some (pattern_delete_verdict (get_sender_stats three_deleted_rows)) := by
  refine (should_skip_llm_spec three_deleted_rows).2.2.1 ?_ ?_ ?_
  all_goals simp +decide [get_sender_stats, three_deleted_rows, List.filter]
  all_goals norm_num

/-! ## C7 — classifier-response validation -/

/-- Claim C7 (confirmed). Parsing any raw classification-service
response yields a validated result (the parser is a total function,
so no exception escapes): the recommendation is always one of
delete/keep/archive and the confidence always lies in `[0, 1]`; an
absent or unparsable confidence ends as 0.5 (so does a decode
failure); an absent category or priority defaults to
`"unknown"`/`"medium"`; a present-but-invalid recommendation is
coerced to `"keep"`; a missing recommendation falls back to the whole
default dictionary. -/
theorem parse_analysis_response_validates :
    (∀ raw : RawResponse,
      ((parse_analysis_response raw).recommendation = "delete" ∨
        (parse_analysis_response raw).recommendation = "keep" ∨
        (parse_analysis_response raw).recommendation = "archive")
      ∧ 0 ≤ (parse_analysis_response raw).confidence_score
      ∧ (parse_analysis_response raw).confidence_score ≤ 1)
    ∧ (∀ j : JsonResp,
        j.confidence_score = none ∨ j.confidence_score = some .bad →
        (parse_analysis_response (.json j)).confidence_score = 1/2)
    ∧ (parse_analysis_response .malformed).confidence_score = 1/2
    ∧ (∀ j : JsonResp, j.category = none →
        (parse_analysis_response (.json j)).category = "unknown")
    ∧ (∀ j : JsonResp, j.priority = none →
        (parse_analysis_response (.json j)).priority = "medium")
    ∧ (∀ (j : JsonResp) (s : String), j.recommendation = some s →
        (["delete", "keep", "archive"].contains s) = false →
        (parse_analysis_response (.json j)).recommendation = "keep")
    ∧ (∀ j : JsonResp, j.recommendation = none →
        parse_analysis_response (.json j) = default_analysis) := by
  have hconf : ∀ c : ℚ, 0 ≤ max 0 (min 1 c) ∧ max 0 (min 1 c) ≤ 1 :=
    fun c => ⟨le_max_left 0 _, max_le (by norm_num) (min_le_left 1 c)⟩
  have hvalid : ∀ s : String,
      (["delete", "keep", "archive"].contains s) = true →
      s = "delete" ∨ s = "keep" ∨ s = "archive" := by
    intro s hs
    simpa +decide [List.contains] using hs
  have hinvalid : ∀ s : String,
      (["delete", "keep", "archive"].contains s) = false →
      ¬(s = "delete" ∨ s = "keep" ∨ s = "archive") := by
    intro s hs
    intro h
    have : (["delete", "keep", "archive"].contains s) = true := by
      simp +decide [List.contains]
      tauto
    rw [hs] at this
    exact Bool.false_ne_true this
  refine ⟨?_, ?_, ?_, ?_, ?_, ?_, ?_⟩
  · intro raw
    match raw with
    | .malformed => norm_num [parse_analysis_response, default_analysis]
    | .json j =>
      match hrec : j.recommendation with
      | none => norm_num [parse_analysis_response, hrec, default_analysis]
      | some s =>
        match hc : j.confidence_score with
        | some .bad =>
          norm_num [parse_analysis_response, hrec, hc, default_analysis]
        | none =>
          cases hs : (["delete", "keep", "archive"].contains s)
          · simp only [parse_analysis_response, hrec, hc, hs,
              Bool.false_eq_true, if_false]
            exact ⟨Or.inr (Or.inl trivial), by norm_num, by norm_num⟩
          · simp only [parse_analysis_response, hrec, hc, hs, if_true]
            exact ⟨hvalid s hs, by norm_num, by norm_num⟩
        | some (.num c) =>
          cases hs : (["delete", "keep", "archive"].contains s)
          · simp only [parse_analysis_response, hrec, hc, hs,
              Bool.false_eq_true, if_false]
            exact ⟨Or.inr (Or.inl trivial), (hconf c).1, (hconf c).2⟩
          · simp only [parse_analysis_response, hrec, hc, hs, if_true]
            exact ⟨hvalid s hs, (hconf c).1, (hconf c).2⟩
  · intro j hj
    match hrec : j.recommendation with
    | none => norm_num [parse_analysis_response, hrec, default_analysis]
    | some s =>
      rcases hj with hj | hj <;>
        norm_num [parse_analysis_response, hrec, hj, default_analysis]
  · norm_num [parse_analysis_response, default_analysis]
  · intro j hj
    match hrec : j.recommendation with
    | none => simp [parse_analysis_response, hrec, default_analysis]
    | some s =>
      match hc : j.confidence_score with
      | none => simp [parse_analysis_response, hrec, hc, hj]
      | some .bad => simp [parse_analysis_response, hrec, hc, default_analysis]
      | some (.num c) => simp [parse_analysis_response, hrec, hc, hj]
  · intro j hj
    match hrec : j.recommendation with
    | none => simp [parse_analysis_response, hrec, default_analysis]
    | some s =>
      match hc : j.confidence_score with
      | none => simp [parse_analysis_response, hrec, hc, hj]
      | some .bad => simp [parse_analysis_response, hrec, hc, default_analysis]
      | some (.num c) => simp [parse_analysis_response, hrec, hc, hj]
  · intro j s hrec hs
    match hc : j.confidence_score with
    | some .bad => simp [parse_analysis_response, hrec, hc, default_analysis]
    | none =>
      simp only [parse_analysis_response, hrec, hc, hs,
        Bool.false_eq_true, if_false]
    | some (.num c) =>
      simp only [parse_analysis_response, hrec, hc, hs,
        Bool.false_eq_true, if_false]
  · intro j hrec
    simp [parse_analysis_response, hrec]

/-- Witness for `parse_analysis_response_validates`: an out-of-range
recommendation with an absent confidence is coerced to keep at
confidence 0.5 with defaulted category and priority. -/
theorem parse_analysis_response_validates_witness :
    (parse_analysis_response (.json
      { recommendation := some "discard", confidence_score := none
        reasoning := none, category := none, priority := none })).recommendation
        = "keep"
    ∧ (parse_analysis_response (.json
      { recommendation := some "discard", confidence_score := none
        reasoning := none, category := none, priority := none })).confidence_score
        = 1/2
    ∧ (parse_analysis_response (.json
      { recommendation := some "discard", confidence_score := none
        reasoning := none, category := none, priority := none })).category
        = "unknown"
    ∧ (parse_analysis_response (.json
      { recommendation := some "discard", confidence_score := none
        reasoning := none, category := none, priority := none })).priority
        = "medium" := by
  refine ⟨?_, ?_, ?_, ?_⟩
  · exact parse_analysis_response_validates.2.2.2.2.2.1 _ "discard" rfl rfl
  · exact parse_analysis_response_validates.2.1 _ (Or.inl rfl)
  · exact parse_analysis_response_validates.2.2.2.1 _ rfl
  · exact parse_analysis_response_validates.2.2.2.2.1 _ rfl

/-! ## C1 — classifier outage behaviour -/

/-- Claim C1 (counterexample). With no rule match and no sender
pattern, a failed classification-service call leaves the pipeline with
nothing to persist: `_process_email` rolls back and reports failure
(`process_verdict` is `none`), instead of persisting the claimed
default-keep verdict with confidence 0.5 and an "analysis failed"
reasoning. -/
theorem service_failure_persists_nothing :
    check_email sample_rules plain_email 0 = none
    ∧ should_skip_llm ([] : List DecisionRow) = none
    ∧ process_verdict sample_rules plain_email 0 [] empty_bucket_aggs
        none "llama3.2" = none :=
  ⟨rfl, rfl, rfl⟩

/-- Claim C1 (amended). When the classification-service call fails
(unreachable, timeout, or non-2xx — `_call_ollama` returning `None`)
and neither the rule tier nor the pattern tier matched, the pipeline
persists no verdict at all for the message: processing fails and is
rolled back. The default-keep 0.5 verdict exists only for a service
reply whose body cannot be parsed, not for a failed call. -/
theorem service_failure_no_verdict (r : EmailRules) (e : EmailData)
    (now : Int) (rows : List DecisionRow) (aggs : String → BucketAgg)
    (model : String)
    (h1 : check_email r e now = none)
    (h2 : should_skip_llm rows = none) :
    process_verdict r e now rows aggs none model = none := by
  rw [process_verdict, h1, h2]
  rfl

/-- Witness for `service_failure_no_verdict` at the concrete no-match
fixtures. -/
theorem service_failure_no_verdict_witness :
    process_verdict sample_rules plain_email 0 [] empty_bucket_aggs
      none "llama3.2" = none :=
  service_failure_no_verdict sample_rules plain_email 0 []
    empty_bucket_aggs "llama3.2" rfl rfl

/-! ## C2 — what the persisted model-tier confidence is -/

/-- Claim C2 (counterexample). A tier-3 verdict whose calibrated
confidence differs from the stated one by exactly 0.05 is persisted
with the *stated* confidence 0.90, not the calibrated 0.85 returned by
the calibrator: the scanner applies calibration only when the
adjustment exceeds 0.05. -/
theorem calibration_gate_concrete :
    (process_verdict sample_rules plain_email 0 [] small_error_bucket_aggs
        (some delete_response) "llama3.2").map
        (fun t => t.result.confidence_score) = some (9/10)
    ∧ (calibrate_confidence (9/10) small_error_bucket_aggs).1 = 17/20
    ∧ ((9:ℚ)/10 ≠ 17/20) := by
  refine ⟨?_, ?_, by norm_num⟩
  · have h1 : check_email sample_rules plain_email 0 = none := rfl
    have h2 : should_skip_llm ([] : List DecisionRow) = none := rfl
    simp only [process_verdict, h1, h2, analyze_email,
      parse_analysis_response, delete_response]
    norm_num [calibrate_confidence, find_bucket, find_bucket_aux, buckets,
      mk_bucket_stats, small_error_bucket_aggs, abs_of_nonneg]
  · have hb9 : find_bucket (9/10 : ℚ) = some (17/20, 19/20, "high") := by
      norm_num [find_bucket, find_bucket_aux, buckets]
    rw [calibrate_confidence, hb9]
    norm_num [mk_bucket_stats, small_error_bucket_aggs]

/-- Claim C2 (amended). Rule-tier and pattern-tier verdicts are
persisted with their own confidence and never calibrated; a successful
tier-3 classification is persisted with the calibrated confidence when
the calibrator moved the value by more than 0.05, and with the
stated confidence of the classifier otherwise. -/
theorem process_verdict_tier_confidences (r : EmailRules) (e : EmailData)
    (now : Int) (rows : List DecisionRow) (aggs : String → BucketAgg)
    (response : Option RawResponse) (model : String) :
    (∀ rv : RuleVerdict, check_email r e now = some rv →
      process_verdict r e now rows aggs response model =
        some ⟨rv.toAResult, "rules_engine", "1.0"⟩)
    ∧ (∀ pv : PatternVerdict, check_email r e now = none →
        should_skip_llm rows = some pv →
        process_verdict r e now rows aggs response model =
          some ⟨pv.toAResult, "pattern_memory", "1.0"⟩)
    ∧ (∀ a : AResult, check_email r e now = none →
        should_skip_llm rows = none →
        analyze_email response = some a →
        (process_verdict r e now rows aggs response model).map
            (fun t => t.result.confidence_score) =
          some (if |(calibrate_confidence a.confidence_score aggs).1 -
                a.confidence_score| > 1/20
            then (calibrate_confidence a.confidence_score aggs).1
            else a.confidence_score)) := by
  refine ⟨?_, ?_, ?_⟩
  · intro rv h1
    rw [process_verdict, h1]
  · intro pv h1 h2
    rw [process_verdict, h1, h2]
  · intro a h1 h2 h3
    have key : process_verdict r e now rows aggs response model =
        if |(calibrate_confidence a.confidence_score aggs).1 -
            a.confidence_score| > 1/20
        then some ⟨{ a with
              confidence_score :=
                (calibrate_confidence a.confidence_score aggs).1
              reasoning := a.reasoning ++ " (Confidence calibrated)" },
            model, "latest"⟩
        else some ⟨a, model, "latest"⟩ := by
      rw [process_verdict, h1, h2, h3]
    rw [key]
    by_cases hgate : |(calibrate_confidence a.confidence_score aggs).1 -
        a.confidence_score| > 1/20
    · rw [if_pos hgate, if_pos hgate]
      rfl
    · rw [if_neg hgate, if_neg hgate]
      rfl

/-- Witness for `process_verdict_tier_confidences`: on the damping
fixture the calibrator moves 0.90 to 0.80 (adjustment 0.10 > 0.05),
and 0.80 is what gets persisted. -/
theorem process_verdict_tier_confidences_witness :
    (process_verdict sample_rules plain_email 0 [] damping_bucket_aggs
        (some delete_response) "llama3.2").map
        (fun t => t.result.confidence_score) = some (4/5) := by
  have h := (process_verdict_tier_confidences sample_rules plain_email 0 []
    damping_bucket_aggs (some delete_response) "llama3.2").2.2
    (parse_analysis_response
      (.json { recommendation := some "delete"
               confidence_score := some (.num (9/10))
               reasoning := some "r", category := some "newsletter"
               priority := some "low" }))
    rfl rfl rfl
  rw [h]
  have hb9 : find_bucket
      ((parse_analysis_response
        (.json { recommendation := some "delete"
                 confidence_score := some (.num (9/10))
                 reasoning := some "r", category := some "newsletter"
                 priority := some "low" })).confidence_score) =
      some (17/20, 19/20, "high") := by
    norm_num [parse_analysis_response, find_bucket, find_bucket_aux, buckets]
  rw [calibrate_confidence, hb9]
  norm_num [parse_analysis_response, mk_bucket_stats, damping_bucket_aggs,
    abs_of_nonneg, abs_sub_comm]

/-! ## C8 — idempotent re-analysis -/

/-- Claim C8 (confirmed). Re-running the pipeline for a message with an
existing analysis overwrites that record in place: no second record is
created (the list length is unchanged), afterwards exactly one record
carries the message id, every record with that id holds the new
content with review status reset to `pending_review`, and in general
at-most-one-record-per-message is preserved (a fresh message gets
exactly one record). -/
theorem upsert_analysis_in_place (db : List AnalysisRecord) (id : Nat)
    (t : TierOutput) (now : Int)
    (h : db.countP (fun a => a.email_id = id) ≤ 1) :
    (upsert_analysis db id t now).countP (fun a => a.email_id = id) = 1
    ∧ (db.countP (fun a => a.email_id = id) = 1 →
        (upsert_analysis db id t now).length = db.length)
    ∧ (∀ a ∈ upsert_analysis db id t now, a.email_id = id →
        a = mk_analysis_record id t now)
    ∧ (mk_analysis_record id t now).status = "pending_review" := by
  induction db with
  | nil =>
    refine ⟨?_, ?_, ?_, rfl⟩
    · simp [upsert_analysis, List.countP_cons, mk_analysis_record]
    · intro habs
      simp [List.countP_nil] at habs
    · intro a ha hid
      simp only [upsert_analysis, List.mem_singleton] at ha
      exact ha
  | cons r rest ih =>
    by_cases hr : r.email_id = id
    · have hcount : (r :: rest).countP (fun a => a.email_id = id) =
          rest.countP (fun a => a.email_id = id) + 1 := by
        simp [List.countP_cons, hr]
      have hrest0 : rest.countP (fun a => a.email_id = id) = 0 := by
        omega
      have hnone : ∀ a ∈ rest, ¬ a.email_id = id := by
        intro a ha
        have := List.countP_eq_zero.mp hrest0 a ha
        simpa using this
      refine ⟨?_, ?_, ?_, rfl⟩
      · simp [upsert_analysis, hr, List.countP_cons, mk_analysis_record,
          hrest0]
      · intro _
        simp [upsert_analysis, hr]
      · intro a ha hid
        simp only [upsert_analysis, hr, if_true, List.mem_cons] at ha
        rcases ha with ha | ha
        · exact ha
        · exact absurd hid (hnone a ha)
    · have hcount : (r :: rest).countP (fun a => a.email_id = id) =
          rest.countP (fun a => a.email_id = id) := by
        simp [List.countP_cons, hr]
      have hrest : rest.countP (fun a => a.email_id = id) ≤ 1 := by
        omega
      obtain ⟨ih1, ih2, ih3, -⟩ := ih hrest
      refine ⟨?_, ?_, ?_, rfl⟩
      · simp [upsert_analysis, hr, List.countP_cons, ih1]
      · intro hone
        have := ih2 (by omega)
        simp [upsert_analysis, hr, this]
      · intro a ha hid
        simp only [upsert_analysis, hr, if_false, List.mem_cons] at ha
        rcases ha with ha | ha
        · subst ha
          exact absurd hid hr
        · exact ih3 a ha hid

/-- Witness for `upsert_analysis_in_place`: a one-record database for
message 1 updated in place. -/
theorem upsert_analysis_in_place_witness :
    (upsert_analysis
        [mk_analysis_record 1 ⟨default_analysis, "rules_engine", "1.0"⟩ 0]
        1 ⟨default_analysis, "llama3.2", "latest"⟩ 5).countP
      (fun a => a.email_id = 1) = 1
    ∧ (upsert_analysis
        [mk_analysis_record 1 ⟨default_analysis, "rules_engine", "1.0"⟩ 0]
        1 ⟨default_analysis, "llama3.2", "latest"⟩ 5).length = 1 := by
  have h := upsert_analysis_in_place
    [mk_analysis_record 1 ⟨default_analysis, "rules_engine", "1.0"⟩ 0]
    1 ⟨default_analysis, "llama3.2", "latest"⟩ 5 (by decide)
  exact ⟨h.1, h.2.1 (by decide)⟩

/-! ## C9 — the domain scan of the pattern miner -/

/-- Claim C9 (counterexample). The sender `"alice@"` yields the empty
extracted domain, which the loop skips: with 8 decisions, all deleted
(delete rate 1 ≥ 0.9), no rule is proposed, refuting "a domain rule is
proposed exactly when the domain has at least 8 decisions with delete
rate at least 0.9". -/
theorem domain_scan_skips_blank_domain :
    extract_domain "alice@" = ""
    ∧ get_domain_patterns [⟨"", 8, 0, 8⟩] 8 (9/10) = []
    ∧ domain_delete_rate ⟨"", 8, 0, 8⟩ = 1 := by
  refine ⟨rfl, rfl, ?_⟩
  norm_num [domain_delete_rate]

/-- Claim C9 (corrected). The domain scan proposes only delete-direction
rules (never keep, whatever the keep consistency), and a domain rule is
proposed exactly when the extracted domain is non-empty, contains no
`'@'`, has at least `min_decisions` decisions and delete rate at least
the threshold. -/
theorem get_domain_patterns_spec (rows : List DomainRow)
    (min_decisions : Nat) (threshold : ℚ) :
    (∀ p ∈ get_domain_patterns rows min_decisions threshold,
      p.action = "delete" ∧ p.rule_type = "domain_auto_delete"
      ∧ min_decisions ≤ p.total_decisions
      ∧ threshold ≤ p.consistency_rate)
    ∧ (∀ g ∈ rows, g.domain ≠ "" → str_in "@" g.domain = false →
        min_decisions ≤ g.total → threshold ≤ domain_delete_rate g →
        ({ domain := g.domain, action := "delete"
           total_decisions := g.total
           consistency_rate := domain_delete_rate g
           rule_type := "domain_auto_delete" } : DomainPattern) ∈
          get_domain_patterns rows min_decisions threshold) := by
  constructor
  · intro p hp
    rw [get_domain_patterns] at hp
    obtain ⟨g, hg, hsome⟩ := List.mem_filterMap.mp hp
    obtain ⟨hgrows, hmin⟩ := List.mem_filter.mp hg
    by_cases hdom : g.domain = "" ∨ str_in "@" g.domain = true
    · simp [hdom] at hsome
    · rw [if_neg hdom] at hsome
      by_cases hrate : domain_delete_rate g ≥ threshold
      · rw [if_pos hrate] at hsome
        obtain rfl := Option.some.inj hsome
        exact ⟨rfl, rfl, by simpa using hmin, hrate⟩
      · rw [if_neg hrate] at hsome
        exact absurd hsome (by simp)
  · intro g hg hd1 hd2 hmin hrate
    rw [get_domain_patterns]
    refine List.mem_filterMap.mpr ⟨g, ?_, ?_⟩
    · exact List.mem_filter.mpr ⟨hg, by simpa using hmin⟩
    · rw [if_neg (by simp [hd1, hd2]), if_pos hrate]

/-- Witness for `get_domain_patterns_spec`: a valid domain with 8 fully
consistent delete decisions is proposed. -/
theorem get_domain_patterns_spec_witness :
    ({ domain := "spam.com", action := "delete", total_decisions := 8
       consistency_rate := domain_delete_rate ⟨"spam.com", 8, 0, 8⟩
       rule_type := "domain_auto_delete" } : DomainPattern) ∈
      get_domain_patterns [⟨"spam.com", 8, 0, 8⟩] 8 (9/10) := by
  refine (get_domain_patterns_spec [⟨"spam.com", 8, 0, 8⟩] 8 (9/10)).2
    ⟨"spam.com", 8, 0, 8⟩ (by simp) (by decide) (by decide) (by decide) ?_
  norm_num [domain_delete_rate]

/-! ## C10 — rule- and pattern-tier verdicts -/

/-- Claim C10 (confirmed). Every verdict produced by the rule tier or
the pattern tier recommends keep or delete — never archive — with
confidence at least 0.9; archive can only come from the model tier. -/
theorem rule_pattern_verdicts_keep_delete :
    (∀ (r : EmailRules) (e : EmailData) (now : Int) (v : RuleVerdict),
      check_email r e now = some v →
      (v.recommendation = "keep" ∨ v.recommendation = "delete")
      ∧ 9/10 ≤ v.confidence_score)
    ∧ (∀ (rows : List DecisionRow) (v : PatternVerdict),
      should_skip_llm rows = some v →
      (v.recommendation = "keep" ∨ v.recommendation = "delete")
      ∧ 9/10 ≤ v.confidence_score) := by
  constructor
  · intro r e now v hv
    rw [check_email] at hv
    split at hv
    · obtain rfl := Option.some.inj hv
      exact ⟨Or.inr rfl, by norm_num [old_event_verdict]⟩
    · split at hv
      · obtain rfl := Option.some.inj hv
        exact ⟨Or.inl rfl, by norm_num [vip_verdict]⟩
      · split at hv
        · obtain rfl := Option.some.inj hv
          exact ⟨Or.inl rfl, by norm_num [event_verdict]⟩
        · split at hv
          · obtain rfl := Option.some.inj hv
            exact ⟨Or.inl rfl, by norm_num [personal_verdict]⟩
          · split at hv
            · obtain rfl := Option.some.inj hv
              exact ⟨Or.inr rfl, by norm_num [old_job_verdict]⟩
            · split at hv
              · obtain rfl := Option.some.inj hv
                exact ⟨Or.inr rfl, by norm_num [old_newsletter_verdict]⟩
              · split at hv
                · obtain rfl := Option.some.inj hv
                  exact ⟨Or.inr rfl, by norm_num [old_promotional_verdict]⟩
                · exact absurd hv (by simp)
  · intro rows v hv
    rw [should_skip_llm] at hv
    split at hv
    · exact absurd hv (by simp)
    · split at hv
      · obtain rfl := Option.some.inj hv
        rename_i hk
        exact ⟨Or.inl rfl, hk⟩
      · split at hv
        · obtain rfl := Option.some.inj hv
          rename_i hd
          exact ⟨Or.inr rfl, hd⟩
        · exact absurd hv (by simp)

/-- Witness for `rule_pattern_verdicts_keep_delete`: the VIP rule
verdict for the sample configuration. -/
theorem rule_pattern_verdicts_keep_delete_witness :
    ((vip_verdict "a@b.com").recommendation = "keep" ∨
      (vip_verdict "a@b.com").recommendation = "delete")
    ∧ 9/10 ≤ (vip_verdict "a@b.com").confidence_score :=
  rule_pattern_verdicts_keep_delete.1 sample_rules
    { sender := "a@b.com", subject := "hi", body_preview := "", date := none }
    0 (vip_verdict "a@b.com") rfl

end EmailScanner
